import Mathlib

/-!
Shallow embedding of `src/utils/azure_auth_helper.py` and the notebook
discovery logic of `src/tests/test_notebooks.py`.

External effects (construction of SDK credential objects and their
`get_token` calls) are modelled by an environment `Env` recording whether
each external call succeeds, and every run produces an event trace
recording, in order, which external steps were attempted.
-/

namespace AzureAuthHelper

/-- Embedding of Python's `str.lower()` as it is used by
`authenticate_azure` on its `auth_method` argument: each character is
lowercased (on the ASCII letters A-Z this is exactly what
`str.lower()` does, and the strings compared against are ASCII). -/
def py_lower (s : String) : String :=
  ⟨s.data.map Char.toLower⟩

/-- Outcome of the external calls made by the azure.identity SDK:
whether `DefaultAzureCredential()` construction succeeds, whether its
`get_token` succeeds, whether the token request of the interactive
browser credential succeeds, and likewise for the device-code
credential.  The `Err` fields carry the message of the exception the
SDK raises when the corresponding token request fails. -/
structure Env where
  defaultConstructOk : Bool
  defaultTokenOk : Bool
  browserTokenOk : Bool
  deviceTokenOk : Bool
  browserErr : String
  deviceErr : String
deriving DecidableEq, Repr

/-- The credential object returned to the caller: either the cached
`DefaultAzureCredential`, or an interactive credential bound to the
tenant it was constructed with. -/
inductive Credential where
  | defaultCred : Credential
  | browserCred (tenant_id : String) : Credential
  | deviceCred (tenant_id : String) : Credential
deriving DecidableEq, Repr

/-- Exceptions that escape `authenticate_azure`: the `ValueError`s it
raises itself, and the SDK exception re-raised from a failed token
request of an interactive credential. -/
inductive AuthError where
  | valueError (msg : String) : AuthError
  | tokenFailure (msg : String) : AuthError
deriving DecidableEq, Repr

/-- Observable steps of a run, in order: attempting the cached
credential, each token request, entering an interactive flow, and the
log line printed when an interactive token request fails. -/
inductive Event where
  | tryDefaultCredential : Event
  | defaultTokenRequest : Event
  | enterBrowserFlow : Event
  | browserTokenRequest : Event
  | enterDeviceFlow : Event
  | deviceTokenRequest : Event
  | logAuthFailure (msg : String) : Event
deriving DecidableEq, Repr

/-- Embedding of `_authenticate_with_browser` (azure_auth_helper.py
lines 63-77): construct `InteractiveBrowserCredential(tenant_id=...)`,
test it with one `get_token` call; on success return it, on failure
log the error and re-raise it. -/
def authenticate_with_browser (env : Env) (tenant_id : String) :
    Except AuthError Credential × List Event :=
  if env.browserTokenOk then
    (Except.ok (Credential.browserCred tenant_id),
     [Event.enterBrowserFlow, Event.browserTokenRequest])
  else
    (Except.error (AuthError.tokenFailure env.browserErr),
     [Event.enterBrowserFlow, Event.browserTokenRequest,
      Event.logAuthFailure env.browserErr])

/-- Embedding of `_authenticate_with_device_code` (azure_auth_helper.py
lines 80-95): construct `DeviceCodeCredential(tenant_id=...)`, test it
with one `get_token` call; on success return it, on failure log the
error and re-raise it. -/
def authenticate_with_device_code (env : Env) (tenant_id : String) :
    Except AuthError Credential × List Event :=
  if env.deviceTokenOk then
    (Except.ok (Credential.deviceCred tenant_id),
     [Event.enterDeviceFlow, Event.deviceTokenRequest])
  else
    (Except.error (AuthError.tokenFailure env.deviceErr),
     [Event.enterDeviceFlow, Event.deviceTokenRequest,
      Event.logAuthFailure env.deviceErr])

/-- Embedding of the method dispatch of `authenticate_azure`
(azure_auth_helper.py lines 52-60): compare `auth_method.lower()`
against "browser" and "device", otherwise raise `ValueError`. -/
def method_dispatch (env : Env) (auth_method : String) (tenant_id : String) :
    Except AuthError Credential × List Event :=
  if py_lower auth_method = "browser" then
    authenticate_with_browser env tenant_id
  else if py_lower auth_method = "device" then
    authenticate_with_device_code env tenant_id
  else
    (Except.error (AuthError.valueError
      ("Invalid auth_method: " ++ auth_method ++ ". Use 'browser' or 'device'")),
     [])

/-- Embedding of the cached-credential attempt of `authenticate_azure`
(azure_auth_helper.py lines 43-50): the `try` block constructs
`DefaultAzureCredential()` and requests a token from it; `none` means
an exception was raised inside the block and swallowed by the
`except Exception` handler. -/
def try_default_credential (env : Env) :
    Option Credential × List Event :=
  if env.defaultConstructOk then
    if env.defaultTokenOk then
      (some Credential.defaultCred,
       [Event.tryDefaultCredential, Event.defaultTokenRequest])
    else
      (none, [Event.tryDefaultCredential, Event.defaultTokenRequest])
  else
    (none, [Event.tryDefaultCredential])

/-- Embedding of `authenticate_azure` (azure_auth_helper.py lines
15-60): default the method to "browser", require `tenant_id`, try the
cached credential unless `force`, then dispatch on the method. -/
def authenticate_azure (env : Env) (auth_method : Option String)
    (tenant_id : Option String) (force : Bool) :
    Except AuthError Credential × List Event :=
  let method := auth_method.getD "browser"
  match tenant_id with
  | none =>
      (Except.error (AuthError.valueError
        "tenant_id is required. Please provide your Azure tenant ID."), [])
  | some tid =>
      if force then
        method_dispatch env method tid
      else
        match try_default_credential env with
        | (some cred, evs) => (Except.ok cred, evs)
        | (none, evs) =>
            let d := method_dispatch env method tid
            (d.1, evs ++ d.2)

end AzureAuthHelper

namespace NotebookTests

/-- Character-level test that a path string ends in `.ipynb`, the
suffix selected by the glob pattern `**/*.ipynb`. -/
def has_ipynb_suffix (f : String) : Bool :=
  ".ipynb".data.isSuffixOf f.data

/-- Embedding of `repo_root.glob("**/*.ipynb")` in
`test_all_notebooks_exist` (test_notebooks.py lines 27-28): the
repository is a list of file paths relative to the root, and the
recursive glob keeps exactly those whose name ends in `.ipynb`. -/
def find_notebooks (files : List String) : List String :=
  files.filter has_ipynb_suffix

/-- Embedding of the non-emptiness assertion `assert notebooks` in
`test_all_notebooks_exist` (test_notebooks.py line 31): the test
passes exactly when the discovered list is non-empty. -/
def test_all_notebooks_exist (files : List String) : Bool :=
  !(find_notebooks files).isEmpty

end NotebookTests

open AzureAuthHelper NotebookTests

/-- C2: for every auth method and force flag, `authenticate_azure` with
`tenant_id = none` raises the `ValueError` about the missing tenant id
with an empty event trace: no credential is constructed and no token is
requested before the failure. -/
theorem C2_tenant_required (env : Env) (auth_method : Option String)
    (force : Bool) :
    authenticate_azure env auth_method none force =
      (Except.error (AuthError.valueError
        "tenant_id is required. Please provide your Azure tenant ID."), []) := by
  rfl

/-- C3: when `force = false` and the cached credential both constructs
and validates, `authenticate_azure` returns that cached credential with
a trace containing only the cached-credential events; in particular no
interactive flow is entered. -/
theorem C3_cached_valid_no_interactive (env : Env)
    (auth_method : Option String) (tid : String)
    (h1 : env.defaultConstructOk = true) (h2 : env.defaultTokenOk = true) :
    authenticate_azure env auth_method (some tid) false =
      (Except.ok Credential.defaultCred,
       [Event.tryDefaultCredential, Event.defaultTokenRequest]) ∧
    Event.enterBrowserFlow ∉ (authenticate_azure env auth_method (some tid) false).2 ∧
    Event.enterDeviceFlow ∉ (authenticate_azure env auth_method (some tid) false).2 := by
  have hmain : authenticate_azure env auth_method (some tid) false =
      (Except.ok Credential.defaultCred,
       [Event.tryDefaultCredential, Event.defaultTokenRequest]) := by
    simp [authenticate_azure, try_default_credential, h1, h2]
  refine ⟨hmain, ?_, ?_⟩ <;> rw [hmain] <;> simp

/-- C3 witness: concrete instantiation with a valid cached credential
and the method "device". -/
theorem C3_cached_valid_no_interactive_witness :
    authenticate_azure ⟨true, true, true, true, "be", "de"⟩ (some "device")
        (some "tenant-1") false =
      (Except.ok Credential.defaultCred,
       [Event.tryDefaultCredential, Event.defaultTokenRequest]) :=
  (C3_cached_valid_no_interactive ⟨true, true, true, true, "be", "de"⟩
    (some "device") "tenant-1" rfl rfl).1

/-- C4: with `force = true` the cached-credential path is never
attempted: the call is exactly the method dispatch, and the trace
contains neither the cached-credential attempt nor its token request,
for every state of the cached credential. -/
theorem C4_force_bypasses_cache (env : Env) (auth_method : Option String)
    (tid : String) :
    authenticate_azure env auth_method (some tid) true =
      method_dispatch env (auth_method.getD "browser") tid ∧
    Event.tryDefaultCredential ∉ (authenticate_azure env auth_method (some tid) true).2 ∧
    Event.defaultTokenRequest ∉ (authenticate_azure env auth_method (some tid) true).2 := by
  refine ⟨rfl, ?_, ?_⟩ <;>
  · show _ ∉ (method_dispatch env (auth_method.getD "browser") tid).2
    unfold method_dispatch authenticate_with_browser authenticate_with_device_code
    split_ifs <;> simp

/-- C5: in each interactive path the credential is validated by exactly
one token request immediately after the flow is entered; when that
request fails, the failure is logged and the SDK error is re-raised
unchanged, with no second token request. -/
theorem C5_interactive_failure_logged_reraised (env : Env) (tid : String) :
    (env.browserTokenOk = false →
      authenticate_with_browser env tid =
        (Except.error (AuthError.tokenFailure env.browserErr),
         [Event.enterBrowserFlow, Event.browserTokenRequest,
          Event.logAuthFailure env.browserErr])) ∧
    (env.deviceTokenOk = false →
      authenticate_with_device_code env tid =
        (Except.error (AuthError.tokenFailure env.deviceErr),
         [Event.enterDeviceFlow, Event.deviceTokenRequest,
          Event.logAuthFailure env.deviceErr])) ∧
    (authenticate_with_browser env tid).2.count Event.browserTokenRequest = 1 ∧
    (authenticate_with_device_code env tid).2.count Event.deviceTokenRequest = 1 := by
  refine ⟨fun hb => ?_, fun hd => ?_, ?_, ?_⟩
  · simp [authenticate_with_browser, hb]
  · simp [authenticate_with_device_code, hd]
  · unfold authenticate_with_browser
    split_ifs <;> simp [List.count_cons]
  · unfold authenticate_with_device_code
    split_ifs <;> simp [List.count_cons]

/-- C5 witness: concrete environment in which both interactive token
requests fail. -/
theorem C5_interactive_failure_logged_reraised_witness :
    authenticate_with_browser ⟨true, true, false, false, "boom-b", "boom-d"⟩ "t" =
      (Except.error (AuthError.tokenFailure "boom-b"),
       [Event.enterBrowserFlow, Event.browserTokenRequest,
        Event.logAuthFailure "boom-b"]) ∧
    authenticate_with_device_code ⟨true, true, false, false, "boom-b", "boom-d"⟩ "t" =
      (Except.error (AuthError.tokenFailure "boom-d"),
       [Event.enterDeviceFlow, Event.deviceTokenRequest,
        Event.logAuthFailure "boom-d"]) :=
  ⟨(C5_interactive_failure_logged_reraised
      ⟨true, true, false, false, "boom-b", "boom-d"⟩ "t").1 rfl,
   (C5_interactive_failure_logged_reraised
      ⟨true, true, false, false, "boom-b", "boom-d"⟩ "t").2.1 rfl⟩

/-- C6: `auth_method = none` behaves exactly like `auth_method =
some "browser"`, and when the cached path is bypassed by `force = true`
the call is exactly the interactive browser flow: the default method is
"browser". -/
theorem C6_default_method_is_browser (env : Env) (tid : String) (force : Bool) :
    authenticate_azure env none (some tid) force =
      authenticate_azure env (some "browser") (some tid) force ∧
    authenticate_azure env none (some tid) true =
      authenticate_with_browser env tid := by
  constructor
  · rfl
  · show method_dispatch env "browser" tid = authenticate_with_browser env tid
    rw [method_dispatch, if_pos]
    rfl

/-- C1 counterexample: the claim "every method value outside
{"browser","device"} with a non-None tenant id fails with ValueError"
is false as stated: with `force = false` and a valid cached credential
the method "garbage" succeeds, and "BROWSER" (outside the literal set)
dispatches to the browser flow even with `force = true`. -/
theorem C1_counterexample :
    (authenticate_azure ⟨true, true, true, true, "be", "de"⟩ (some "garbage")
        (some "t") false).1 = Except.ok Credential.defaultCred ∧
    (authenticate_azure ⟨true, true, true, true, "be", "de"⟩ (some "BROWSER")
        (some "t") true).1 = Except.ok (Credential.browserCred "t") := by
  constructor <;> rfl

/-- C1 (amended): for every method whose lowercase form is outside
{"browser","device"} and a non-None tenant id, whenever the method
dispatch is reached — `force = true`, or the cached-credential attempt
fails — the call fails with the Invalid auth_method `ValueError`. -/
theorem C1_invalid_method_raises_at_dispatch (env : Env) (s tid : String)
    (force : Bool)
    (hb : py_lower s ≠ "browser") (hd : py_lower s ≠ "device")
    (hreach : force = true ∨ env.defaultConstructOk = false ∨
      env.defaultTokenOk = false) :
    (authenticate_azure env (some s) (some tid) force).1 =
      Except.error (AuthError.valueError
        ("Invalid auth_method: " ++ s ++ ". Use 'browser' or 'device'")) := by
  have hdisp : method_dispatch env s tid =
      (Except.error (AuthError.valueError
        ("Invalid auth_method: " ++ s ++ ". Use 'browser' or 'device'")), []) := by
    simp [method_dispatch, hb, hd]
  rcases hreach with hf | hc | ht
  · subst hf
    simp [authenticate_azure, hdisp]
  · cases force <;>
      simp [authenticate_azure, try_default_credential, hc, hdisp]
  · cases force <;> rcases hcc : env.defaultConstructOk with _ | _ <;>
      simp [authenticate_azure, try_default_credential, hcc, ht, hdisp]

/-- C1 witness: the amended claim applied to the method "garbage" with
`force = true`. -/
theorem C1_invalid_method_raises_at_dispatch_witness :
    (authenticate_azure ⟨true, true, true, true, "be", "de"⟩ (some "garbage")
        (some "t") true).1 =
      Except.error (AuthError.valueError
        ("Invalid auth_method: " ++ "garbage" ++ ". Use 'browser' or 'device'")) :=
  C1_invalid_method_raises_at_dispatch ⟨true, true, true, true, "be", "de"⟩
    "garbage" "t" true (by decide) (by decide) (Or.inl rfl)

/-- C7: the discovered notebook list is non-empty exactly when some
file under the root has the `.ipynb` suffix, and the test's assertion
passes exactly when the discovered list is non-empty. -/
theorem C7_discovery_nonempty_iff (files : List String) :
    (find_notebooks files ≠ [] ↔ ∃ f ∈ files, has_ipynb_suffix f = true) ∧
    ( test_all_notebooks_exist files = true ↔ find_notebooks files ≠ []) := by
  constructor
  · simp [find_notebooks, List.filter_eq_nil_iff]
  · simp [ test_all_notebooks_exist, List.isEmpty_iff]

/-- C8: method matching lowercases the argument, so any spelling whose
lowercase form is "browser" dispatches to the browser flow and any
spelling whose lowercase form is "device" dispatches to the device-code
flow, with no configuration error. -/
theorem C8_method_matching_case_insensitive (env : Env) (tid s : String) :
    (py_lower s = "browser" →
      authenticate_azure env (some s) (some tid) true =
        authenticate_with_browser env tid) ∧
    (py_lower s = "device" →
      authenticate_azure env (some s) (some tid) true =
        authenticate_with_device_code env tid) := by
  constructor
  · intro hb
    show method_dispatch env s tid = authenticate_with_browser env tid
    simp [method_dispatch, hb]
  · intro hd
    show method_dispatch env s tid = authenticate_with_device_code env tid
    have hb : py_lower s ≠ "browser" := by
      rw [hd]; decide
    simp [method_dispatch, hb, hd]

/-- C8 witness: "BROWSER" dispatches to the browser flow and "Device"
to the device-code flow. -/
theorem C8_method_matching_case_insensitive_witness :
    authenticate_azure ⟨true, true, true, true, "be", "de"⟩ (some "BROWSER")
        (some "t") true =
      authenticate_with_browser ⟨true, true, true, true, "be", "de"⟩ "t" ∧
    authenticate_azure ⟨true, true, true, true, "be", "de"⟩ (some "Device")
        (some "t") true =
      authenticate_with_device_code ⟨true, true, true, true, "be", "de"⟩ "t" :=
  ⟨(C8_method_matching_case_insensitive ⟨true, true, true, true, "be", "de"⟩
      "t" "BROWSER").1 (by decide),
   (C8_method_matching_case_insensitive ⟨true, true, true, true, "be", "de"⟩
      "t" "Device").2 (by decide)⟩

/-- C9: when `force = false` and the cached credential validates, the
result does not depend on the method argument at all, and in particular
an invalid method such as "garbage" succeeds with the cached credential
instead of raising a configuration error. -/
theorem C9_cached_success_ignores_method (env : Env) (tid : String)
    (m1 m2 : Option String)
    (h1 : env.defaultConstructOk = true) (h2 : env.defaultTokenOk = true) :
    authenticate_azure env m1 (some tid) false =
      authenticate_azure env m2 (some tid) false ∧
    (authenticate_azure env (some "garbage") (some tid) false).1 =
      Except.ok Credential.defaultCred := by
  constructor
  · simp [authenticate_azure, try_default_credential, h1, h2]
  · simp [authenticate_azure, try_default_credential, h1, h2]

/-- C9 witness: concrete valid cached credential with the methods
"garbage" and none. -/
theorem C9_cached_success_ignores_method_witness :
    authenticate_azure ⟨true, true, false, false, "be", "de"⟩ (some "garbage")
        (some "t") false =
      authenticate_azure ⟨true, true, false, false, "be", "de"⟩ none
        (some "t") false ∧
    (authenticate_azure ⟨true, true, false, false, "be", "de"⟩ (some "garbage")
        (some "t") false).1 = Except.ok Credential.defaultCred :=
  C9_cached_success_ignores_method ⟨true, true, false, false, "be", "de"⟩
    "t" (some "garbage") none rfl rfl

/-- C10: every failure inside the cached-credential attempt (credential
construction or its token request) is swallowed: the call proceeds to
the method dispatch, whose outcome is returned unchanged after the
cached-attempt events, so no cached-path exception ever reaches the
caller. -/
theorem C10_cached_failure_swallowed (env : Env) (m : Option String)
    (tid : String)
    (hfail : env.defaultConstructOk = false ∨ env.defaultTokenOk = false) :
    authenticate_azure env m (some tid) false =
      ((method_dispatch env (m.getD "browser") tid).1,
       (try_default_credential env).2 ++
         (method_dispatch env (m.getD "browser") tid).2) := by
  rcases hfail with hc | ht
  · simp [authenticate_azure, try_default_credential, hc]
  · rcases hcc : env.defaultConstructOk with _ | _ <;>
      simp [authenticate_azure, try_default_credential, hcc, ht]

/-- C10 witness: cached token request fails, method "garbage",
showing the dispatch error is the one returned. -/
theorem C10_cached_failure_swallowed_witness :
    authenticate_azure ⟨true, false, true, true, "be", "de"⟩ (some "garbage")
        (some "t") false =
      ((method_dispatch ⟨true, false, true, true, "be", "de"⟩ "garbage" "t").1,
       (try_default_credential ⟨true, false, true, true, "be", "de"⟩).2 ++
         (method_dispatch ⟨true, false, true, true, "be", "de"⟩ "garbage" "t").2) :=
  C10_cached_failure_swallowed ⟨true, false, true, true, "be", "de"⟩
    (some "garbage") "t" (Or.inr rfl)

